import Mathlib

/-!
Verification of the YouTube average-views automation repository.

The repository is a small YouTube Data API client
(`src/youtube_api/client.py`), an average-views calculator script
(`scripts/avg_views_last_30d.py`) and a HubSpot CRM syncing job
(`hubspot/hubspot_avg_views_last_30d.py`).

This file shallowly embeds the pure/decidable cores of those programs:

* the ISO-8601 duration parser (identical code in `client.py` line 13 and
  `scripts/avg_views_last_30d.py` line 29); the Python regex
  `P(?:T(?:(\d+)H)?(?:(\d+)M)?(?:(\d+)S)?)` is an anchored-at-start prefix
  match, reproduced here by a greedy component matcher over the character
  list (digit characters are never unit letters, so the regex engine's
  backtracking never changes the greedy outcome);
* the staleness check `is_stale_or_missing` and timestamp formatter
  `iso_today_midnight_utc` of the HubSpot job;
* the calculator `avg_views_last_30d` (its interaction with the external
  date parser `dateutil.parser.parse` and with Python `int()`/`float()`
  coercion is abstracted into small inductive outcome types: those parsers
  are third-party library code, not code of this repository);
* the per-contact update logic `process_contact` and the batch loop of
  `main` in the HubSpot job, with the network PATCH modelled as the list of
  PATCH calls the code issues;
* the client's `resolve_channel_id`, `fetch_channel_info`,
  `fetch_video_details` and the pagination loop of `fetch_videos`, with the
  HTTP layer modelled as response oracles (instants of time are seconds
  since the epoch, UTC, as integers; Python float arithmetic on view
  averages is modelled with exact rationals).
-/

namespace YTAvg

/-! ### Duration parser

Embeds `_iso8601_duration_to_minutes` (`src/youtube_api/client.py`
lines 13-26) = `iso8601_duration_to_minutes`
(`scripts/avg_views_last_30d.py` lines 29-41). -/

/-- Numeric value of a digit run, as Python `int` reads it. -/
def digitsVal (ds : List Char) : Nat :=
  ds.foldl (fun a c => 10 * a + (c.toNat - 48)) 0

/-- One optional regex component `(\d+)U` at the current position: consume a
maximal digit run followed by the unit letter `u`, or consume nothing. -/
def matchComp (u : Char) (cs : List Char) : Option Nat × List Char :=
  let ds := cs.takeWhile (fun c => c.isDigit)
  let rest := cs.dropWhile (fun c => c.isDigit)
  match ds, rest with
  | [], _ => (none, cs)
  | _ :: _, c :: rest2 => if c = u then (some (digitsVal ds), rest2) else (none, cs)
  | _ :: _, [] => (none, cs)

/-- The anchored prefix match of `P(?:T(?:(\d+)H)?(?:(\d+)M)?(?:(\d+)S)?)`:
`none` when the string does not start with `PT`; otherwise the three captured
groups plus the unconsumed remainder of the string. -/
def durationComponents (s : String) : Option (Option Nat × Option Nat × Option Nat × List Char) :=
  match s.data with
  | 'P' :: 'T' :: rest =>
    let rh := matchComp 'H' rest
    let rm := matchComp 'M' rh.2
    let rs := matchComp 'S' rm.2
    some (rh.1, rm.1, rs.1, rs.2)
  | _ => none

/-- `_iso8601_duration_to_minutes` / `iso8601_duration_to_minutes`: value
`hours * 60 + minutes + seconds / 60.0`, and `0.0` when the regex does not
match. -/
def iso8601_duration_to_minutes (dur : String) : ℚ :=
  match durationComponents dur with
  | none => 0
  | some (h, m, s, _) => (h.getD 0 : ℚ) * 60 + (m.getD 0 : ℚ) + (s.getD 0 : ℚ) / 60

/-- The Python call sites pass `dur or ""`, turning `None` into the empty
string before parsing. -/
def iso8601_duration_to_minutes_of_option (dur : Option String) : ℚ :=
  iso8601_duration_to_minutes (dur.getD "")

/-- Whether the string begins with the two-letter time marker `PT` (the
regex cannot match at all otherwise). -/
def startsWithPT (s : String) : Bool :=
  match s.data with
  | 'P' :: 'T' :: _ => true
  | _ => false

/-- Spec-side notion of a well-formed duration: the whole string is
`PT` followed by optional `<digits>H`, `<digits>M`, `<digits>S` components
in that order — i.e. the parse consumes the entire input. A string that is
not of this shape is malformed. -/
def isWellFormedDuration (s : String) : Bool :=
  match durationComponents s with
  | none => false
  | some (_, _, _, rest) => rest.isEmpty

/-! ### Parse-outcome abstractions for third-party parsers -/

/-- Outcome of reading an optional ISO date string and running
`dateutil.parser.parse` on it: the value is falsy (absent, `None` or empty),
the parse raises, or it yields an instant `t` (seconds since epoch, UTC;
a timezone-naive result is already normalised to UTC by the caller). -/
inductive DateValue
  | missing
  | unparseable
  | parsed (t : Int)
  deriving DecidableEq

/-- Outcome of the Python view-count coercion chain on `v.get("viewCount")`:
falsy value (`or 0`), successful `int(view)`, successful `int(float(view))`
after `int` failed (truncation toward zero), or total failure. -/
inductive ViewValue
  | missing
  | asInt (n : Int)
  | asFloat (x : ℚ)
  | unreadable
  deriving DecidableEq

/-- Python `int(float)` truncates toward zero. -/
def truncate_toward_zero (x : ℚ) : Int :=
  if 0 ≤ x then ⌊x⌋ else ⌈x⌉

/-- The coercion `scripts/avg_views_last_30d.py` lines 66-73: try `int`,
fall back to `int(float(...))`, fall back to `0`. -/
def coerce_view : ViewValue → Int
  | .missing => 0
  | .asInt n => n
  | .asFloat x => truncate_toward_zero x
  | .unreadable => 0

/-! ### Average-views calculator (`scripts/avg_views_last_30d.py` 44-77) -/

/-- A video record as produced by `fetch_videos` and consumed by
`avg_views_last_30d`. Presentation-only fields (title, thumbnails, like and
comment counts) are omitted; `duration` is the raw ISO string, `none`
standing for an absent/`None` value (both parse to zero minutes). -/
structure Video where
  id : String
  publishedAt : DateValue
  duration : Option String
  viewCount : ViewValue
  deriving DecidableEq

/-- Duration minutes of a video as the calculator computes them:
`v.get("duration", "PT0S")` then the parser (an explicit `None` value goes
through `dur or ""`; both defaults parse to `0`). -/
def video_duration_minutes (v : Video) : ℚ :=
  iso8601_duration_to_minutes_of_option v.duration

/-- The filtering loop of `avg_views_last_30d`: walk the fetched videos,
skipping those with falsy or unparseable `publishedAt`, those published
before the cutoff, and those shorter than `min_minutes`; collect the
coerced view counts of the rest, in order. -/
def collect_matching_views (cutoff : Int) (min_minutes : Int) : List Video → List Int
  | [] => []
  | v :: vs =>
    match v.publishedAt with
    | .missing => collect_matching_views cutoff min_minutes vs
    | .unparseable => collect_matching_views cutoff min_minutes vs
    | .parsed pub_dt =>
      if pub_dt < cutoff then collect_matching_views cutoff min_minutes vs
      else if video_duration_minutes v < (min_minutes : ℚ) then
        collect_matching_views cutoff min_minutes vs
      else coerce_view v.viewCount :: collect_matching_views cutoff min_minutes vs

/-- `avg_views_last_30d` with the fetch already performed: `now` is the
instant of the call, the cutoff is `now` minus 30 days, and the result is
the arithmetic mean of the collected view counts, or `0.0` when none match. -/
def avg_views_last_30d (now : Int) (min_minutes : Int) (videos : List Video) : ℚ :=
  let matching := collect_matching_views (now - 30 * 86400) min_minutes videos
  if matching = [] then 0 else (matching.sum : ℚ) / (matching.length : ℚ)

/-- Spec-side qualification predicate, written from the specification's
words: the video's publish timestamp parses and is "within the last 30 days
(not earlier than the cutoff)" and its parsed duration is at least
`min_minutes`. -/
def qualifiesSpec (cutoff : Int) (min_minutes : Int) (v : Video) : Bool :=
  match v.publishedAt with
  | .parsed t => decide (cutoff ≤ t) && decide ((min_minutes : ℚ) ≤ video_duration_minutes v)
  | _ => false

/-! ### HubSpot job helpers (`hubspot/hubspot_avg_views_last_30d.py`) -/

/-- `is_stale_or_missing` (lines 82-93): `True` for a falsy value, `True`
when the parse raises, else the strict comparison `dt < now - STALE_DAYS`. -/
def is_stale_or_missing (now staleDays : Int) : DateValue → Bool
  | .missing => true
  | .unparseable => true
  | .parsed t => decide (t < now - staleDays * 86400)

/-- Zero-pad to two digits, as `strftime` does for `%m` and `%d`. -/
def pad2 (n : Nat) : String :=
  if n < 10 then "0" ++ toString n else toString n

/-- Zero-pad to four digits, as `strftime` does for `%Y`. -/
def pad4 (n : Nat) : String :=
  if n < 10 then "000" ++ toString n
  else if n < 100 then "00" ++ toString n
  else if n < 1000 then "0" ++ toString n
  else toString n

/-- `iso_today_midnight_utc` (lines 77-79): today's UTC date rendered as
`%Y-%m-%dT00:00:00Z`. -/
def iso_today_midnight_utc (y mo d : Nat) : String :=
  pad4 y ++ "-" ++ pad2 mo ++ "-" ++ pad2 d ++ "T00:00:00Z"

/-- Python `round` (banker's rounding: ties go to the even integer),
on exact rationals. -/
def pyRound (x : ℚ) : Int :=
  if x - ⌊x⌋ < 1/2 then ⌊x⌋
  else if (1:ℚ)/2 < x - ⌊x⌋ then ⌊x⌋ + 1
  else if 2 ∣ ⌊x⌋ then ⌊x⌋ else ⌊x⌋ + 1

/-- A CRM contact as the job sees it: record id, the
`youtube_handle` channel-identifier property (`none` for absent) and the
`last_updated_youtube_video_average_views` property. -/
structure Contact where
  id : String
  channel_identifier : Option String
  last_updated : DateValue
  deriving DecidableEq

/-- One issued `PATCH /crm/v3/objects/contacts/{id}` call. The job
serialises the average as `f"{avg_rounded:.0f}"`, the decimal rendering of
this integer. -/
structure PatchCall where
  contactId : String
  youtube_video_average_views : Int
  last_updated_youtube_video_average_views : String
  deriving DecidableEq

/-- `process_contact` (lines 168-218), returning the list of PATCH calls it
issues. The average-views computation (which may raise) is supplied as an
`Except` outcome: a falsy identifier is skipped; a raised computation is
caught, logged and skipped; on success exactly one PATCH is issued with the
average rounded via `round(avg / 100) * 100` and today's midnight-UTC
timestamp. -/
def process_contact (y mo d : Nat) (c : Contact) (avgResult : Except Unit ℚ) : List PatchCall :=
  match c.channel_identifier with
  | none => []
  | some s =>
    if s = "" then []
    else
      match avgResult with
      | .error _ => []
      | .ok avg =>
        [{ contactId := c.id
           youtube_video_average_views := pyRound (avg / 100) * 100
           last_updated_youtube_video_average_views := iso_today_midnight_utc y mo d }]

/-- The batch loop of `main` (lines 221-233): every fetched contact is
re-checked for staleness and then processed; the PATCH calls of the whole
batch are concatenated in order. -/
def run_batch (y mo d : Nat) (now staleDays : Int) (contacts : List Contact)
    (calculator : Contact → Except Unit ℚ) : List PatchCall :=
  contacts.flatMap (fun c =>
    if is_stale_or_missing now staleDays c.last_updated then
      process_contact y mo d c (calculator c)
    else [])

/-! ### YouTube client (`src/youtube_api/client.py`)

The HTTP layer (`_get`) is modelled by response oracles: an
`Except Nat items` value is the outcome of one GET — `error status` when
`raise_for_status` raised an HTTP-status error, `ok items` the parsed
`items` list of a 2xx response. Each client function also reports how many
HTTP requests it issued. -/

/-- The two kinds of errors a client call can surface: the HTTP-status
error raised by the transport layer, and the domain-level `ValueError`
raised on an empty result set. -/
inductive ApiError
  | httpError (status : Nat)
  | notFound (msg : String)
  deriving DecidableEq

/-- One item of a channel-search response (only the field the client
reads). -/
structure SearchItem where
  channelId : String
  deriving DecidableEq

/-- One item of a `channels` lookup response. The reshaped output dict of
`fetch_channel_info` (title, counts, thumbnails, content details) is
represented by the item itself; the claims only concern the error
behaviour. -/
structure ChannelItem where
  id : String
  title : String
  deriving DecidableEq

/-- One item of a `videos` lookup response, similarly abbreviated. -/
structure VideoItem where
  id : String
  title : String
  deriving DecidableEq

/-- `s.startswith(p)`. -/
def starts_with (s p : String) : Bool :=
  p.data.isPrefixOf s.data

/-- Python `str.strip()`: drop leading and trailing whitespace. -/
def pyStrip (s : String) : String :=
  String.mk (((s.data.dropWhile Char.isWhitespace).reverse.dropWhile Char.isWhitespace).reverse)

/-- Python `str.rstrip("/")`: drop trailing slashes. -/
def rstrip_slashes (s : String) : String :=
  String.mk ((s.data.reverse.dropWhile (fun c => c = '/')).reverse)

/-- Python `str.split("/")` (never returns an empty list: splitting the
empty string gives `[""]`). -/
def split_on_slash : List Char → List (List Char)
  | [] => [[]]
  | c :: cs =>
    if c = '/' then [] :: split_on_slash cs
    else
      match split_on_slash cs with
      | [] => [[c]]
      | p :: ps => (c :: p) :: ps

/-- `identifier.rstrip("/").split("/")[-1]`: the trailing path segment. -/
def last_path_segment (s : String) : String :=
  String.mk ((split_on_slash (rstrip_slashes s).data).getLastD [])

/-- The search fallback at the end of `resolve_channel_id` (lines 53-59):
one GET to `search`; an empty `items` list raises the domain "not found"
error, otherwise the first item's `channelId` is returned. -/
def resolve_search (oracle : String → Except Nat (List SearchItem)) (q : String) :
    Except ApiError String × Nat :=
  match oracle q with
  | .error st => (.error (.httpError st), 1)
  | .ok [] => (.error (.notFound ("Channel not found for identifier: " ++ q)), 1)
  | .ok (it :: _) => (.ok it.channelId, 1)

/-- `resolve_channel_id` (lines 44-59), returning the outcome and the
number of HTTP requests issued. -/
def resolve_channel_id (oracle : String → Except Nat (List SearchItem))
    (identifier : String) : Except ApiError String × Nat :=
  if starts_with identifier ("UC") && decide (identifier.length > 20) then
    (.ok identifier, 0)
  else
    let identifier2 := pyStrip identifier
    if starts_with identifier2 ("http") then
      let possible := last_path_segment identifier2
      if starts_with possible ("UC") then (.ok possible, 0)
      else resolve_search oracle possible
    else resolve_search oracle identifier2

/-- `fetch_channel_info` (lines 61-78) after the identifier has been
resolved: one GET to `channels`; empty `items` raises the domain
"not found" error, otherwise the first item is reshaped and returned. -/
def fetch_channel_info (resp : Except Nat (List ChannelItem)) : Except ApiError ChannelItem :=
  match resp with
  | .error st => .error (.httpError st)
  | .ok [] => .error (.notFound ("Channel not found"))
  | .ok (it :: _) => .ok it

/-- `fetch_video_details` (lines 122-139): one GET to `videos`; empty
`items` raises the domain "not found" error, otherwise the first item is
reshaped and returned. -/
def fetch_video_details (resp : Except Nat (List VideoItem)) : Except ApiError VideoItem :=
  match resp with
  | .error st => .error (.httpError st)
  | .ok [] => .error (.notFound ("Video not found"))
  | .ok (it :: _) => .ok it

/-! #### The pagination loop of `fetch_videos` (lines 80-120)

The uploads playlist is modelled as the full upstream list `upl`; the
`playlistItems` endpoint serves, for a page token `start` (an index into
`upl`; the absent token of the first request is index 0) and a requested
page size `cnt`, the items `(upl.drop start).take cnt` and a next-page
token exactly when items remain after them — upstream pages are disjoint
and honor the requested size, as the claim assumes. The element type is
abstract: the loop never inspects the accumulated records, and the
follow-up batched statistics merge (lines 103-119) maps over them one to
one, preserving ids and length. `fuel` bounds the iteration count; it is
called with more fuel than the loop can consume. -/

/-- The `while len(videos) < max_results` loop. Returns the accumulated
records and the sizes of the page requests issued, in order. -/
def fetch_go {α : Type} (upl : List α) (m : Nat) : Nat → Nat → List α → List α × List Nat
  | 0, _, acc => (acc, [])
  | Nat.succ fuel, start, acc =>
    if acc.length < m then
      let cnt := min 50 (m - acc.length)
      let page := (upl.drop start).take cnt
      let next := start + page.length
      if next < upl.length then
        let r := fetch_go upl m fuel next (acc ++ page)
        (r.1, cnt :: r.2)
      else (acc ++ page, [cnt])
    else (acc, [])

/-- The loop of `fetch_videos` from the first request, with ample fuel. -/
def fetch_videos_from {α : Type} (upl : List α) (m : Nat) : List α × List Nat :=
  fetch_go upl m (upl.length + m) 0 []

/-- Sizes of the `playlistItems` page requests `fetch_videos` issues. -/
def fetch_videos_requests {α : Type} (upl : List α) (m : Nat) : List Nat :=
  (fetch_videos_from upl m).2

/-- `fetch_videos` after identifier resolution: the `channels` lookup
yields `chanItems` (each item carrying its uploads playlist); an empty
`items` list returns the empty list (lines 84-86) — no error — otherwise
the first item's uploads playlist is paginated. -/
def fetch_videos {α : Type} (chanItems : List (List α)) (m : Nat) : List α :=
  match chanItems with
  | [] => []
  | upl :: _ => (fetch_videos_from upl m).1

/-! ### Concrete data for witnesses and counterexamples -/

/-- A search oracle that finds a channel for every query. -/
def searchOracleConst : String → Except Nat (List SearchItem) :=
  fun _ => .ok [{ channelId := "UCfoundBySearch1234567890" }]

/-- A search oracle whose every response has an empty items list. -/
def emptyOracle : String → Except Nat (List SearchItem) :=
  fun _ => .ok []

/-- The end-to-end scenario of the specification: five qualifying videos
(published at the call instant, ten minutes long) with view counts
100, 150, 200, 50, 500. -/
def scenarioVideos : List Video :=
  [ { id := "a", publishedAt := .parsed 0, duration := some "PT10M", viewCount := .asInt 100 }
  , { id := "b", publishedAt := .parsed 0, duration := some "PT10M", viewCount := .asInt 150 }
  , { id := "c", publishedAt := .parsed 0, duration := some "PT10M", viewCount := .asInt 200 }
  , { id := "d", publishedAt := .parsed 0, duration := some "PT10M", viewCount := .asInt 50 }
  , { id := "e", publishedAt := .parsed 0, duration := some "PT10M", viewCount := .asInt 500 }
  ]

/-- The scenario contact: no last-updated property, a channel identifier
present. -/
def scenarioContact : Contact :=
  { id := "201", channel_identifier := some "@creator", last_updated := .missing }

/-- Two healthy neighbours of a failing contact in one batch. -/
def contactBefore : Contact :=
  { id := "1", channel_identifier := some "@one", last_updated := .missing }

/-- See `contactBefore`. -/
def contactAfter : Contact :=
  { id := "3", channel_identifier := some "@three", last_updated := .missing }

/-- A contact whose average-views computation will raise. -/
def contactFailing : Contact :=
  { id := "2", channel_identifier := some "@two", last_updated := .missing }

/-- A calculator oracle raising exactly on `contactFailing`. -/
def mixedCalculator : Contact → Except Unit ℚ :=
  fun c => if c.id = "2" then .error () else .ok 100

/-! ## Theorems -/

/-- A string that does not begin with the `PT` marker is rejected by the
anchored regex. -/
theorem durationComponents_eq_none (s : String) (hs : startsWithPT s = false) :
    durationComponents s = none := by
  unfold durationComponents
  split
  · rename_i rest heq
    unfold startsWithPT at hs
    rw [heq] at hs
    simp at hs
  · rfl

/-- C1: `is_stale_or_missing` returns `True` whenever the last-updated
value is missing; for a present, parseable value it returns `True` iff
that value is strictly earlier than the cutoff (now minus the staleness
threshold); a value exactly equal to the cutoff is not stale. -/
theorem claim_c1_staleness (now staleDays t : Int) :
    is_stale_or_missing now staleDays .missing = true ∧
    (is_stale_or_missing now staleDays (.parsed t) = true ↔ t < now - staleDays * 86400) ∧
    is_stale_or_missing now staleDays (.parsed (now - staleDays * 86400)) = false := by
  refine ⟨rfl, ?_, ?_⟩
  · simp [is_stale_or_missing]
  · simp [is_stale_or_missing]

/-- C6 counterexample: `"PT2M3H"` is a malformed duration string (the
parse does not consume it entirely) yet the parser maps it to `2.0`
minutes, not `0.0`: the claim "every malformed string maps to 0.0" fails. -/
theorem claim_c6_counterexample :
    isWellFormedDuration ("PT2M3H") = false ∧
    iso8601_duration_to_minutes ("PT2M3H") = 2 := by
  constructor
  · decide
  · have h : durationComponents ("PT2M3H") = some (none, some 2, none, ['3', 'H']) := by decide
    simp [iso8601_duration_to_minutes, h]

/-- C6 (amended): the duration parser maps `"PT1H2M3S"` to 62.05 minutes
exactly (1241/20), `"PT45M"` to 45.0, `"PT0S"`, the empty string, an
absent (`None`-like) input and every string not beginning with the `PT`
marker to 0.0, and it is a total function (never raises); a malformed
string whose prefix the pattern does match is parsed by that prefix and
may yield a nonzero value. -/
theorem claim_c6_duration (s : String) (hs : startsWithPT s = false) :
    iso8601_duration_to_minutes ("PT1H2M3S") = 1241 / 20 ∧
    iso8601_duration_to_minutes ("PT45M") = 45 ∧
    iso8601_duration_to_minutes ("PT0S") = 0 ∧
    iso8601_duration_to_minutes ("") = 0 ∧
    iso8601_duration_to_minutes_of_option none = 0 ∧
    iso8601_duration_to_minutes s = 0 := by
  refine ⟨?_, ?_, ?_, ?_, ?_, ?_⟩
  · have h : durationComponents ("PT1H2M3S") = some (some 1, some 2, some 3, []) := by decide
    rw [iso8601_duration_to_minutes, h]
    norm_num
  · have h : durationComponents ("PT45M") = some (none, some 45, none, []) := by decide
    rw [iso8601_duration_to_minutes, h]
    norm_num
  · have h : durationComponents ("PT0S") = some (none, none, some 0, []) := by decide
    rw [iso8601_duration_to_minutes, h]
    norm_num
  · rw [iso8601_duration_to_minutes, durationComponents_eq_none ("") (by decide)]
  · rw [iso8601_duration_to_minutes_of_option, Option.getD_none,
      iso8601_duration_to_minutes, durationComponents_eq_none ("") (by decide)]
  · rw [iso8601_duration_to_minutes, durationComponents_eq_none s hs]

/-- Witness for C6 at the concrete non-matching string `"P1M"`. -/
theorem claim_c6_duration_witness :
    startsWithPT ("P1M") = false ∧
    (iso8601_duration_to_minutes ("PT1H2M3S") = 1241 / 20 ∧
      iso8601_duration_to_minutes ("PT45M") = 45 ∧
      iso8601_duration_to_minutes ("PT0S") = 0 ∧
      iso8601_duration_to_minutes ("") = 0 ∧
      iso8601_duration_to_minutes_of_option none = 0 ∧
      iso8601_duration_to_minutes ("P1M") = 0) :=
  ⟨by decide, claim_c6_duration ("P1M") (by decide)⟩

/-- C2 counterexample: for the URL `"https://www.youtube.com/UCshort"`,
the trailing path segment `"UCshort"` fails the full canonical-ID-shape
check (its length is not greater than 20), yet `resolve_channel_id`
returns it unchanged with zero requests instead of treating it as a
search identifier (the search would have produced a different channel
id). -/
theorem claim_c2_counterexample :
    (starts_with ("UCshort") ("UC") && decide (("UCshort").length > 20)) = false ∧
    resolve_channel_id searchOracleConst ("https://www.youtube.com/UCshort")
      = (.ok ("UCshort"), 0) ∧
    (resolve_search searchOracleConst ("UCshort")).1 = .ok ("UCfoundBySearch1234567890") := by
  exact ⟨by decide, rfl, rfl⟩

/-- C2 (amended): for an identifier that fails the canonical-ID-shape
check and whose stripped form is a URL, `resolve_channel_id` extracts the
trailing path segment and applies to it only the prefix check
(`startswith("UC")`, with no length requirement): the segment is returned
unchanged, with no request, exactly when it starts with `"UC"`, and is
otherwise used as a search identifier. -/
theorem claim_c2_url_resolution (oracle : String → Except Nat (List SearchItem))
    (identifier : String)
    (h1 : (starts_with identifier ("UC") && decide (identifier.length > 20)) = false)
    (h2 : starts_with (pyStrip identifier) ("http") = true) :
    resolve_channel_id oracle identifier =
      (if starts_with (last_path_segment (pyStrip identifier)) ("UC") then
        (.ok (last_path_segment (pyStrip identifier)), 0)
      else resolve_search oracle (last_path_segment (pyStrip identifier))) := by
  unfold resolve_channel_id
  simp only [h1, h2, Bool.false_eq_true, if_false, if_true]

/-- Witness for C2 at a URL whose trailing segment is a full canonical
channel id. -/
theorem claim_c2_url_resolution_witness :
    (starts_with ("https://www.youtube.com/channel/UC1234567890123456789012/") ("UC") &&
      decide (("https://www.youtube.com/channel/UC1234567890123456789012/").length > 20)) = false ∧
    starts_with (pyStrip ("https://www.youtube.com/channel/UC1234567890123456789012/")) ("http") = true ∧
    resolve_channel_id searchOracleConst ("https://www.youtube.com/channel/UC1234567890123456789012/") =
      (if starts_with (last_path_segment (pyStrip ("https://www.youtube.com/channel/UC1234567890123456789012/"))) ("UC") then
        (.ok (last_path_segment (pyStrip ("https://www.youtube.com/channel/UC1234567890123456789012/"))), 0)
      else resolve_search searchOracleConst (last_path_segment (pyStrip ("https://www.youtube.com/channel/UC1234567890123456789012/")))) :=
  ⟨by decide, by decide,
    claim_c2_url_resolution searchOracleConst
      ("https://www.youtube.com/channel/UC1234567890123456789012/") (by decide) (by decide)⟩

/-- C9: a string starting with `"UC"` of length greater than 20 is
returned unchanged by `resolve_channel_id`, with zero HTTP requests, for
every oracle. -/
theorem claim_c9_passthrough (oracle : String → Except Nat (List SearchItem))
    (identifier : String) (h1 : starts_with identifier ("UC") = true)
    (h2 : identifier.length > 20) :
    resolve_channel_id oracle identifier = (.ok identifier, 0) := by
  unfold resolve_channel_id
  simp [h1, h2]

/-- Witness for C9 at a 23-character canonical id. -/
theorem claim_c9_passthrough_witness :
    starts_with ("UC123456789012345678901") ("UC") = true ∧
    ("UC123456789012345678901").length > 20 ∧
    resolve_channel_id emptyOracle ("UC123456789012345678901")
      = (.ok ("UC123456789012345678901"), 0) :=
  ⟨by decide, by decide,
    claim_c9_passthrough emptyOracle ("UC123456789012345678901") (by decide) (by decide)⟩

/-- C8: on a 2xx response, `fetch_video_details` and `fetch_channel_info`
raise the domain-level "not found" error iff the response's items list is
empty; an HTTP-status error is surfaced as the distinct `httpError`
constructor; and the search of `resolve_channel_id` raises the same kind
of "not found" error when it returns no items. -/
theorem claim_c8_not_found (itemsV : List VideoItem) (itemsC : List ChannelItem)
    (st : Nat) (oracle : String → Except Nat (List SearchItem)) (q : String)
    (hq : oracle q = .ok []) :
    ((∃ msg, fetch_video_details (.ok itemsV) = .error (.notFound msg)) ↔ itemsV = []) ∧
    ((∃ msg, fetch_channel_info (.ok itemsC) = .error (.notFound msg)) ↔ itemsC = []) ∧
    fetch_video_details (.error st) = .error (.httpError st) ∧
    fetch_channel_info (.error st) = .error (.httpError st) ∧
    (∀ msg hst, ApiError.notFound msg ≠ ApiError.httpError hst) ∧
    (resolve_search oracle q).1
      = .error (.notFound ("Channel not found for identifier: " ++ q)) := by
  refine ⟨?_, ?_, rfl, rfl, fun msg hst => by simp, ?_⟩
  · cases itemsV with
    | nil => simp [fetch_video_details]
    | cons it rest => simp [fetch_video_details]
  · cases itemsC with
    | nil => simp [fetch_channel_info]
    | cons it rest => simp [fetch_channel_info]
  · rw [resolve_search, hq]

/-- Witness for C8 with an empty search response. -/
theorem claim_c8_not_found_witness :
    emptyOracle ("@nobody") = .ok [] ∧
    (((∃ msg, fetch_video_details (.ok ([] : List VideoItem)) = .error (.notFound msg)) ↔
        ([] : List VideoItem) = []) ∧
      ((∃ msg, fetch_channel_info (.ok ([] : List ChannelItem)) = .error (.notFound msg)) ↔
        ([] : List ChannelItem) = []) ∧
      fetch_video_details (.error 404) = .error (.httpError 404) ∧
      fetch_channel_info (.error 404) = .error (.httpError 404) ∧
      (∀ msg hst, ApiError.notFound msg ≠ ApiError.httpError hst) ∧
      (resolve_search emptyOracle ("@nobody")).1
        = .error (.notFound ("Channel not found for identifier: " ++ "@nobody"))) :=
  ⟨rfl, claim_c8_not_found [] [] 404 emptyOracle ("@nobody") rfl⟩

/-- C10: when the channel lookup inside `fetch_videos` returns no items,
`fetch_videos` returns the empty list — no "not found" error — unlike
`fetch_channel_info` and `fetch_video_details`, which raise on an empty
result; consequently `avg_views_last_30d` over its output yields exactly
`0.0` for such a channel. -/
theorem claim_c10_empty_channel (m : Nat) (now min_minutes : Int) :
    fetch_videos ([] : List (List Video)) m = [] ∧
    avg_views_last_30d now min_minutes (fetch_videos ([] : List (List Video)) m) = 0 ∧
    (∃ msg, fetch_channel_info (.ok []) = .error (.notFound msg)) ∧
    (∃ msg, fetch_video_details (.ok []) = .error (.notFound msg)) :=
  ⟨rfl, rfl, ⟨"Channel not found", rfl⟩, ⟨"Video not found", rfl⟩⟩

/-- The filtering loop collects exactly the coerced view counts of the
videos satisfying the spec-side qualification predicate, in order. -/
theorem collect_eq_filter (cutoff min_minutes : Int) (vs : List Video) :
    collect_matching_views cutoff min_minutes vs =
      (vs.filter (qualifiesSpec cutoff min_minutes)).map (fun v => coerce_view v.viewCount) := by
  induction vs with
  | nil => rfl
  | cons v vs ih =>
    rw [List.filter_cons]
    cases hpub : v.publishedAt with
    | missing =>
      have hq : qualifiesSpec cutoff min_minutes v = false := by
        unfold qualifiesSpec
        rw [hpub]
      simp [collect_matching_views, hpub, hq, ih]
    | unparseable =>
      have hq : qualifiesSpec cutoff min_minutes v = false := by
        unfold qualifiesSpec
        rw [hpub]
      simp [collect_matching_views, hpub, hq, ih]
    | parsed t =>
      by_cases hc : t < cutoff
      · have hq : qualifiesSpec cutoff min_minutes v = false := by
          unfold qualifiesSpec
          rw [hpub]
          simp [not_le.mpr hc]
        simp [collect_matching_views, hpub, hc, hq, ih]
      · by_cases hd : video_duration_minutes v < (min_minutes : ℚ)
        · have hq : qualifiesSpec cutoff min_minutes v = false := by
            unfold qualifiesSpec
            rw [hpub]
            simp [not_le.mpr hd]
          simp [collect_matching_views, hpub, hc, hd, hq, ih]
        · have hq : qualifiesSpec cutoff min_minutes v = true := by
            unfold qualifiesSpec
            rw [hpub]
            simp [not_lt.mp hc, not_lt.mp hd]
          simp [collect_matching_views, hpub, hc, hd, hq, ih]

/-- C3: `avg_views_last_30d` returns the arithmetic mean of the
integer-coerced view counts of exactly those videos whose publish
timestamp parses and is not earlier than the 30-day cutoff and whose
parsed duration is at least `min_minutes`; when no video qualifies it
returns exactly `0.0`. -/
theorem claim_c3_average (now min_minutes : Int) (videos : List Video) :
    avg_views_last_30d now min_minutes videos =
      (if videos.filter (qualifiesSpec (now - 30 * 86400) min_minutes) = [] then 0
       else (((videos.filter (qualifiesSpec (now - 30 * 86400) min_minutes)).map
           (fun v => coerce_view v.viewCount)).sum : ℚ) /
         ((videos.filter (qualifiesSpec (now - 30 * 86400) min_minutes)).length : ℚ)) := by
  simp only [avg_views_last_30d]
  rw [collect_eq_filter]
  by_cases hfil : videos.filter (qualifiesSpec (now - 30 * 86400) min_minutes) = []
  · simp [hfil]
  · simp [hfil, List.map_eq_nil_iff, List.length_map]

/-- Python `round` lands within one half of its argument. -/
theorem pyRound_close (x : ℚ) : |((pyRound x : ℤ) : ℚ) - x| ≤ 1 / 2 := by
  have h1 : ((⌊x⌋ : ℤ) : ℚ) ≤ x := Int.floor_le x
  have h2 : x < ((⌊x⌋ : ℤ) : ℚ) + 1 := Int.lt_floor_add_one x
  unfold pyRound
  split
  · rename_i h
    rw [abs_le]
    constructor <;> linarith
  · split
    · rename_i h h3
      rw [abs_le]
      push_cast
      constructor <;> linarith
    · split
      · rename_i h h3 h4
        rw [abs_le]
        have h5 : x - ((⌊x⌋ : ℤ) : ℚ) = 1 / 2 := le_antisymm (not_lt.mp h3) (not_lt.mp h)
        constructor <;> linarith
      · rename_i h h3 h4
        rw [abs_le]
        have h5 : x - ((⌊x⌋ : ℤ) : ℚ) = 1 / 2 := le_antisymm (not_lt.mp h3) (not_lt.mp h)
        push_cast
        constructor <;> linarith

/-- C5: when the average-views computation for a contact with a channel
identifier succeeds, `process_contact` issues exactly one PATCH whose
average-views property is `round(avg / 100) * 100` — a multiple of 100
within 50 of the computed average, i.e. the average rounded to the
nearest hundred — and whose last-updated property is today's date at
midnight UTC. -/
theorem claim_c5_patch (y mo d : Nat) (c : Contact) (s : String) (avg : ℚ)
    (hid : c.channel_identifier = some s) (hs : s ≠ "") :
    process_contact y mo d c (.ok avg) =
      [{ contactId := c.id
         youtube_video_average_views := pyRound (avg / 100) * 100
         last_updated_youtube_video_average_views := iso_today_midnight_utc y mo d }] ∧
    (100 : ℤ) ∣ pyRound (avg / 100) * 100 ∧
    |((pyRound (avg / 100) * 100 : ℤ) : ℚ) - avg| ≤ 50 := by
  refine ⟨?_, ⟨pyRound (avg / 100), by ring⟩, ?_⟩
  · unfold process_contact
    rw [hid]
    simp [hs]
  · have h := pyRound_close (avg / 100)
    have heq : ((pyRound (avg / 100) * 100 : ℤ) : ℚ) - avg
        = 100 * (((pyRound (avg / 100) : ℤ) : ℚ) - avg / 100) := by
      push_cast
      ring
    rw [heq, abs_mul, abs_of_nonneg (by norm_num : (0 : ℚ) ≤ 100)]
    linarith

/-- The scenario average: view counts 100, 150, 200, 50, 500 over five
qualifying videos average to exactly 200. -/
theorem scenario_avg : avg_views_last_30d 0 3 scenarioVideos = 200 := by
  have h : durationComponents ("PT10M") = some (none, some 10, none, []) := by decide
  have hd : video_duration_minutes
      { id := "a", publishedAt := .parsed 0, duration := some "PT10M", viewCount := .asInt 100 }
      = 10 := by
    rw [video_duration_minutes, iso8601_duration_to_minutes_of_option, Option.getD_some,
      iso8601_duration_to_minutes, h]
    norm_num
  norm_num [avg_views_last_30d, scenarioVideos, collect_matching_views,
    video_duration_minutes, iso8601_duration_to_minutes_of_option,
    iso8601_duration_to_minutes, h, coerce_view]
  decide

/-- Witness for C5: the end-to-end scenario contact receives exactly one
PATCH carrying the value 200 and the midnight-UTC date. -/
theorem claim_c5_patch_witness :
    scenarioContact.channel_identifier = some "@creator" ∧
    ("@creator" : String) ≠ "" ∧
    process_contact 2026 10 12 scenarioContact (.ok (avg_views_last_30d 0 3 scenarioVideos)) =
      [{ contactId := "201"
         youtube_video_average_views := 200
         last_updated_youtube_video_average_views := "2026-10-12T00:00:00Z" }] := by
  have h := claim_c5_patch 2026 10 12 scenarioContact "@creator"
    (avg_views_last_30d 0 3 scenarioVideos) rfl (by decide)
  refine ⟨rfl, by decide, ?_⟩
  rw [h.1, scenario_avg]
  norm_num [pyRound, scenarioContact]
  decide

/-- C7: a raised average-views computation is caught at the contact
boundary — `process_contact` issues no PATCH for that contact and returns
normally — and the batch loop still produces exactly the PATCHes of the
other contacts. -/
theorem claim_c7_error_isolation (y mo d : Nat) (now staleDays : Int) (c : Contact)
    (calculator : Contact → Except Unit ℚ) (e : Unit) (h : calculator c = .error e)
    (cs1 cs2 : List Contact) :
    process_contact y mo d c (calculator c) = [] ∧
    run_batch y mo d now staleDays (cs1 ++ c :: cs2) calculator =
      run_batch y mo d now staleDays cs1 calculator ++
        run_batch y mo d now staleDays cs2 calculator := by
  have hpc : process_contact y mo d c (calculator c) = [] := by
    rw [h]
    unfold process_contact
    cases c.channel_identifier with
    | none => rfl
    | some s =>
      by_cases hs : s = "" <;> simp [hs]
  refine ⟨hpc, ?_⟩
  unfold run_batch
  rw [List.flatMap_append, List.flatMap_cons]
  have hmid : (if is_stale_or_missing now staleDays c.last_updated then
      process_contact y mo d c (calculator c) else []) = [] := by
    split
    · exact hpc
    · rfl
  rw [hmid]
  simp

/-- Witness for C7: in a three-contact batch whose middle contact's
computation raises, the failing contact contributes no PATCH and the
neighbours are still processed. -/
theorem claim_c7_error_isolation_witness :
    mixedCalculator contactFailing = .error () ∧
    (process_contact 2026 10 12 contactFailing (mixedCalculator contactFailing) = [] ∧
      run_batch 2026 10 12 0 30 ([contactBefore] ++ contactFailing :: [contactAfter])
          mixedCalculator =
        run_batch 2026 10 12 0 30 [contactBefore] mixedCalculator ++
          run_batch 2026 10 12 0 30 [contactAfter] mixedCalculator) :=
  ⟨rfl, claim_c7_error_isolation 2026 10 12 0 30 contactFailing mixedCalculator () rfl
    [contactBefore] [contactAfter]⟩

/-- Taking `k` elements is the same as taking `min k length` elements. -/
theorem take_eq_take_min {α : Type} (l : List α) (k : Nat) :
    l.take k = l.take (min k l.length) := by
  rcases le_total k l.length with h | h
  · rw [min_eq_left h]
  · rw [min_eq_right h, List.take_of_length_le h, List.take_length]

/-- Invariant correctness of the pagination loop: started at token `start`
with the accumulator holding exactly the first `start` upstream items, and
with enough fuel, the loop returns the first `m` upstream items. -/
theorem fetch_go_spec {α : Type} (upl : List α) (m : Nat) :
    ∀ fuel start, upl.length ≤ start + fuel → (upl.take start).length ≤ m →
      (fetch_go upl m fuel start (upl.take start)).1 = upl.take m := by
  intro fuel
  induction fuel with
  | zero =>
    intro start h1 h2
    have hups : upl.take start = upl := List.take_of_length_le (by omega)
    have hlen : upl.length ≤ m := by
      rw [hups] at h2
      exact h2
    simp only [fetch_go]
    rw [hups, List.take_of_length_le hlen]
  | succ fuel ih =>
    intro start h1 h2
    simp only [fetch_go]
    by_cases hlt : (upl.take start).length < m
    · rw [if_pos hlt]
      set len := (upl.take start).length with hlendef
      set cnt := min 50 (m - len) with hcntdef
      set page := (upl.drop start).take cnt with hpagedef
      set nxt := start + page.length with hnxtdef
      have hlenval : len = min start upl.length := by
        rw [hlendef, List.length_take]
      have hplval : page.length = min cnt (upl.length - start) := by
        rw [hpagedef, List.length_take, List.length_drop]
      have hacc2 : upl.take start ++ page = upl.take nxt := by
        rw [hnxtdef, hpagedef, List.take_add]
        congr 1
        rw [List.length_take]
        exact take_eq_take_min (upl.drop start) cnt
      by_cases hn : nxt < upl.length
      · rw [if_pos hn]
        dsimp only
        rw [hacc2]
        apply ih
        · omega
        · rw [List.length_take]
          omega
      · rw [if_neg hn]
        dsimp only
        rw [hacc2]
        have hNn : upl.length ≤ nxt := not_lt.mp hn
        have hlen3 : (upl.take nxt).length = len + page.length := by
          rw [← hacc2, List.length_append, ← hlendef]
        have hlen4 : (upl.take nxt).length = min nxt upl.length := List.length_take nxt upl
        have hNm : upl.length ≤ m := by omega
        rw [List.take_of_length_le hNn, List.take_of_length_le hNm]
    · rw [if_neg hlt]
      dsimp only
      have hEq : min start upl.length = m := by
        rw [← List.length_take]
        exact le_antisymm h2 (not_lt.mp hlt)
      rw [take_eq_take_min upl start, hEq]

/-- Every page request the loop issues asks for at most 50 items. -/
theorem fetch_go_requests_le {α : Type} (upl : List α) (m : Nat) :
    ∀ fuel start acc, ∀ k ∈ (fetch_go upl m fuel start acc).2, k ≤ 50 := by
  intro fuel
  induction fuel with
  | zero =>
    intro start acc k hk
    simp [fetch_go] at hk
  | succ fuel ih =>
    intro start acc k hk
    simp only [fetch_go] at hk
    by_cases h1 : acc.length < m
    · rw [if_pos h1] at hk
      by_cases h2 : start + ((upl.drop start).take (min 50 (m - acc.length))).length < upl.length
      · rw [if_pos h2] at hk
        rcases List.mem_cons.mp hk with rfl | hk2
        · exact min_le_left _ _
        · exact ih _ _ k hk2
      · rw [if_neg h2] at hk
        rcases List.mem_cons.mp hk with rfl | hk2
        · exact min_le_left _ _
        · simp at hk2
    · rw [if_neg h1] at hk
      simp at hk

/-- With fuel remaining and the target count not yet reached, the loop
issues at least one page request. -/
theorem fetch_go_requests_pos {α : Type} (upl : List α) (m : Nat) (fuel start : Nat)
    (acc : List α) (hf : 1 ≤ fuel) (hm : acc.length < m) :
    1 ≤ ((fetch_go upl m fuel start acc).2).length := by
  obtain ⟨fuel1, rfl⟩ : ∃ f, fuel = f + 1 := ⟨fuel - 1, by omega⟩
  simp only [fetch_go]
  rw [if_pos hm]
  by_cases h2 : start + ((upl.drop start).take (min 50 (m - acc.length))).length < upl.length
  · rw [if_pos h2]
    simp
  · rw [if_neg h2]
    simp

/-- When more than one page's worth of items is both wanted and available,
the loop issues at least two page requests. -/
theorem fetch_go_two_requests {α : Type} (upl : List α) (m : Nat) (fuel start : Nat)
    (acc : List α) (hf : 2 ≤ fuel) (hm : acc.length + 50 < m)
    (hN : start + 50 < upl.length) :
    2 ≤ ((fetch_go upl m fuel start acc).2).length := by
  obtain ⟨fuel1, rfl⟩ : ∃ f, fuel = f + 1 := ⟨fuel - 1, by omega⟩
  simp only [fetch_go]
  rw [if_pos (by omega : acc.length < m)]
  have hpl : ((upl.drop start).take (min 50 (m - acc.length))).length = 50 := by
    rw [List.length_take, List.length_drop]
    omega
  have hcond : start + ((upl.drop start).take (min 50 (m - acc.length))).length < upl.length := by
    rw [hpl]
    omega
  rw [if_pos hcond]
  simp only [List.length_cons]
  have hrest := fetch_go_requests_pos upl m fuel1
    (start + ((upl.drop start).take (min 50 (m - acc.length))).length)
    (acc ++ (upl.drop start).take (min 50 (m - acc.length)))
    (by omega)
    (by rw [List.length_append, hpl]; omega)
  omega

/-- C4: against an upstream playlist of `N` available items served in
disjoint pages that honor the requested size, `fetch_videos` returns
exactly the first `min m N` records — pairwise distinct when the upstream
ids are — every page request asks for at most 50 items, and when both the
request and the playlist exceed one page (50), more than one page request
is issued. -/
theorem claim_c4_pagination {α : Type} (upl : List α) (m : Nat) (hnd : upl.Nodup) :
    fetch_videos [upl] m = upl.take m ∧
    (fetch_videos [upl] m).length = min m upl.length ∧
    (fetch_videos [upl] m).Nodup ∧
    (∀ k ∈ fetch_videos_requests upl m, k ≤ 50) ∧
    (50 < m → 50 < upl.length → 2 ≤ (fetch_videos_requests upl m).length) := by
  have hmain : fetch_videos [upl] m = upl.take m := by
    show (fetch_go upl m (upl.length + m) 0 []).1 = upl.take m
    have h := fetch_go_spec upl m (upl.length + m) 0 (by omega) (by simp)
    simpa using h
  refine ⟨hmain, ?_, ?_, ?_, ?_⟩
  · rw [hmain, List.length_take]
  · rw [hmain]
    exact List.Nodup.sublist (List.take_sublist m upl) hnd
  · intro k hk
    exact fetch_go_requests_le upl m (upl.length + m) 0 [] k hk
  · intro hm hN
    show 2 ≤ ((fetch_go upl m (upl.length + m) 0 []).2).length
    exact fetch_go_two_requests upl m (upl.length + m) 0 [] (by omega) (by simp; omega)
      (by omega)

/-- Witness for C4: requesting 55 items from a 60-item playlist returns
the first 55, with two page requests of at most 50 each. -/
theorem claim_c4_pagination_witness :
    (List.range 60).Nodup ∧
    (fetch_videos [List.range 60] 55 = (List.range 60).take 55 ∧
      (fetch_videos [List.range 60] 55).length = min 55 (List.range 60).length ∧
      (fetch_videos [List.range 60] 55).Nodup ∧
      (∀ k ∈ fetch_videos_requests (List.range 60) 55, k ≤ 50) ∧
      (50 < 55 → 50 < (List.range 60).length →
        2 ≤ (fetch_videos_requests (List.range 60) 55).length)) :=
  ⟨List.nodup_range 60, claim_c4_pagination (List.range 60) 55 (List.nodup_range 60)⟩

end YTAvg
